import Mathlib

/-!
Verification development for the light state model and color-reconciliation
engine of a Hue bridge integration (the `LightItem` entity of
`src/lib/hue-light.js`, second — capability-based — variant, and the
`LightServer` poll engine of `src/lib/hue-server.js` / `src/unnamed/part_000`).

The JavaScript source is shallowly embedded: JavaScript numbers are modelled
as exact rationals extended with `NaN` and signed infinities, absent object
fields as `Option`, and statements that throw (`TypeError` on calling an
undefined function or on reading a property of `undefined`) as `Except`.
Places where the rational model idealizes IEEE-754 doubles are marked in
comments; none of the statements proved below depend on such a place.
-/

namespace NodeHue

-- The concrete theorems below evaluate rational arithmetic inside the
-- kernel; Batteries marks the `Rat` operations `irreducible`, which only
-- blocks the elaborator, so they are restored to their ordinary
-- reducibility for this file.
attribute [local semireducible] Rat.add Rat.sub Rat.mul Rat.inv Rat.ofScientific

/-- A JavaScript number: an exact finite value, `NaN`, or a signed infinity.
(Finite doubles are modelled as rationals; every arithmetic step used by the
source is exact in the ranges exercised here, except where noted.) -/
inductive JNum where
  | num (q : ℚ)
  | nan
  | inf
  | ninf
deriving DecidableEq, Repr, Inhabited

/-- A JavaScript value as it appears in the fields the source reads:
`undefined`, booleans, numbers, strings and arrays. -/
inductive JVal where
  | undefined
  | bool (b : Bool)
  | jnum (n : JNum)
  | str (s : String)
  | arr (xs : List JVal)
deriving Repr, Inhabited

namespace JNum

/-- JS `isNaN` restricted to numbers (all call sites pass numbers). -/
def isNaNB : JNum → Bool
  | nan => true
  | _ => false

/-- JS `<` on numbers: any comparison involving `NaN` is `false`. -/
def ltB : JNum → JNum → Bool
  | num a, num b => a < b
  | num _, inf => true
  | ninf, num _ => true
  | ninf, inf => true
  | _, _ => false

/-- JS `>` on numbers. -/
def gtB (a b : JNum) : Bool := ltB b a

/-- JS `>=` on numbers: `false` whenever `NaN` is involved. -/
def geB : JNum → JNum → Bool
  | num a, num b => a ≥ b
  | inf, num _ => true
  | inf, inf => true
  | inf, ninf => true
  | num _, ninf => true
  | ninf, ninf => true
  | _, _ => false

/-- JS addition with `NaN`/infinity propagation. -/
def add : JNum → JNum → JNum
  | num a, num b => num (a + b)
  | nan, _ => nan
  | _, nan => nan
  | inf, ninf => nan
  | ninf, inf => nan
  | inf, _ => inf
  | _, inf => inf
  | ninf, _ => ninf
  | _, ninf => ninf

/-- JS multiplication with `NaN`/infinity propagation. -/
def mul : JNum → JNum → JNum
  | num a, num b => num (a * b)
  | nan, _ => nan
  | _, nan => nan
  | inf, inf => inf
  | inf, ninf => ninf
  | ninf, inf => ninf
  | ninf, ninf => inf
  | inf, num b => if b > 0 then inf else if b < 0 then ninf else nan
  | num a, inf => if a > 0 then inf else if a < 0 then ninf else nan
  | ninf, num b => if b > 0 then ninf else if b < 0 then inf else nan
  | num a, ninf => if a > 0 then ninf else if a < 0 then inf else nan

/-- JS division with `NaN`/infinity propagation (finite/0 gives a signed
infinity, 0/0 gives `NaN`). -/
def div : JNum → JNum → JNum
  | num a, num b =>
      if b = 0 then (if a > 0 then inf else if a < 0 then ninf else nan)
      else num (a / b)
  | nan, _ => nan
  | _, nan => nan
  | inf, inf => nan
  | inf, ninf => nan
  | ninf, inf => nan
  | ninf, ninf => nan
  | inf, num b => if b < 0 then ninf else inf
  | ninf, num b => if b < 0 then inf else ninf
  | num _, inf => num 0
  | num _, ninf => num 0

/-- `Math.round`: round half towards positive infinity; `NaN` and the
infinities are returned unchanged. -/
def round : JNum → JNum
  | num q => num (⌊q + 1/2⌋ : ℤ)
  | n => n

end JNum

namespace JVal

/-- Structural equality test, used for lodash `_.isEqual` (which, unlike
JS `===`, treats `NaN` as equal to `NaN` and compares arrays element-wise). -/
def deepEq : JVal → JVal → Bool
  | undefined, undefined => true
  | bool a, bool b => a == b
  | jnum a, jnum b => a == b
  | str a, str b => a == b
  | arr [], arr [] => true
  | arr (x :: xs), arr (y :: ys) => deepEq x y && deepEq (arr xs) (arr ys)
  | _, _ => false

/-- JS strict equality `===` on the values compared by the source
(`reachable` flags and `colormode` strings): `NaN === NaN` is `false`;
two array values are distinct heap objects at every call site compared by
the source, hence `===`-different. -/
def strictEq : JVal → JVal → Bool
  | undefined, undefined => true
  | bool a, bool b => a == b
  | jnum (.num a), jnum (.num b) => a == b
  | jnum .inf, jnum .inf => true
  | jnum .ninf, jnum .ninf => true
  | str a, str b => a == b
  | _, _ => false

/-- JS `ToNumber` coercion for the values that reach arithmetic in the
source. String and array coercion is simplified (digit strings only); every
claim-relevant arithmetic operand is either a number, a boolean, or
`undefined`, because the command fields are guarded by `_.isFinite` and the
state fields hold bridge numbers. -/
def toNumber : JVal → JNum
  | jnum n => n
  | undefined => .nan
  | bool b => .num (if b then 1 else 0)
  | str s => if s = "" then .num 0
      else if s.all (·.isDigit) then .num ((s.toNat!) : ℚ) else .nan
  | arr [] => .num 0
  | arr [jnum n] => n
  | arr _ => .nan

/-- Truthiness of a possibly-absent JS value (`if (x)`). -/
def truthyO : Option JVal → Bool
  | some (bool b) => b
  | some (jnum (.num q)) => q ≠ 0
  | some (jnum .nan) => false
  | some (jnum _) => true
  | some (str s) => s ≠ ""
  | some (arr _) => true
  | some undefined => false
  | none => false

end JVal

/-- Reading an absent object field yields `undefined`. -/
def optGet : Option JVal → JVal
  | some v => v
  | none => .undefined

/-- lodash `_.isFinite` on a possibly-absent field: `true` exactly for finite
numbers. -/
def isFiniteO : Option JVal → Bool
  | some (.jnum (.num _)) => true
  | _ => false

/-- `limitValue(val, min, max)` (hue-light.js lines 694-702): NaN collapses
to `min`, then the value is clamped from above and below, sequentially. -/
def limitValue (val min max : JNum) : JNum :=
  let val := if val.isNaNB then min else val
  let val := if val.gtB max then max else val
  if val.ltB min then min else val

/-- `limitValue(v)` called with `min` and `max` missing (the misplaced
parenthesis at hue-light.js lines 906-917 passes the bounds to `Math.round`,
which ignores them, so `limitValue` receives only one argument): comparisons
against `undefined` are `false`, and a NaN input becomes `undefined`. -/
def limitValue1 (val : JNum) : JVal :=
  if val.isNaNB then .undefined else .jnum val

/-- The JS exceptions the embedded code can raise. -/
inductive JsErr where
  | typeError (msg : String)
deriving DecidableEq, Repr

/-! ## Data model

`StateObj` is the internal light state produced by `convertHueState`
(hue-light.js lines 647-684) and also the shape of the `newValues` /
`output` accumulator of the parse functions: the only keys ever written are
`on`, `bri`, `hue`, `sat`, `xy`, `ct` and `colormode`. A field holds `none`
when the JS object lacks the key; by convention a present key is never
`undefined` (the bridge never reports explicit `undefined` values). -/

structure StateObj where
  on' : Option JVal := none
  bri : Option JVal := none
  hue : Option JVal := none
  sat : Option JVal := none
  xy : Option JVal := none
  ct : Option JVal := none
  colormode : Option JVal := none
deriving Repr, Inhabited

/-- lodash `_.isEqual(this.state, newState)` on two internal state objects:
key-by-key deep equality (`NaN` equal to `NaN`, arrays element-wise). -/
def stateObjEq (a b : StateObj) : Bool :=
  let f : Option JVal → Option JVal → Bool := fun x y =>
    match x, y with
    | none, none => true
    | some v, some w => v.deepEq w
    | _, _ => false
  f a.on' b.on' && f a.bri b.bri && f a.hue b.hue && f a.sat b.sat &&
    f a.xy b.xy && f a.ct b.ct && f a.colormode b.colormode

/-- The raw `state` (for lights) or `action` (for groups) object of a bridge
snapshot, restricted to the keys the source reads; other keys are dropped by
the whitelist in `convertHueState` and never read elsewhere. -/
structure RawObj where
  on' : Option JVal := none
  bri : Option JVal := none
  hue : Option JVal := none
  sat : Option JVal := none
  xy : Option JVal := none
  ct : Option JVal := none
  colormode : Option JVal := none
  reachable : Option JVal := none
deriving Repr, Inhabited

/-- A bridge snapshot for one light or group (`hueInfo`). `state` is `none`
when the object carries no `state` key (reading a property of it then
throws). -/
structure HueInfo where
  id : String := ""
  name : String := ""
  type : String := ""
  uniqueid : String := ""
  modelid : String := ""
  cls : String := ""
  state : Option RawObj := none
  action : Option RawObj := none
  lights : List String := []
deriving Repr, Inhabited

/-- `LightCapability` bit values (hue-light.js lines 568-573; the `enum`
package assigns flag values 1, 2, 4, 8 to `BRI`, `XY`, `HS`, `CT`). -/
def capBRI : ℕ := 1

/-- `LightCapability.XY` flag. -/
def capXY : ℕ := 2

/-- `LightCapability.HS` flag. -/
def capHS : ℕ := 4

/-- `LightCapability.CT` flag. -/
def capCT : ℕ := 8

/-- `this.info` of a `LightItem` (fields set by the constructor,
hue-light.js lines 716-739). -/
structure Info where
  id : String := ""
  name : String := ""
  reachable : JVal := .bool true
  capability : ℕ := capBRI
  type : String := ""
  uniqueid : String := ""
  modelid : String := ""
  cls : String := ""
  lights : List String := []
deriving Repr, Inhabited

/-- A `LightItem` (hue-light.js lines 711-742): identity, the echo deadline
`modified` (seconds of `process.uptime()`), light/group flag, metadata and
the internal state. -/
structure LightItem where
  id : String
  modified : JNum := .num 0
  isLight : Bool := true
  info : Info := {}
  state : StateObj := {}
deriving Repr, Inhabited

/-- `Except` projection: did the computation return normally? -/
def exIsOk {ε α : Type} : Except ε α → Bool
  | .ok _ => true
  | .error _ => false

/-- The result of a fallible computation satisfies `p` (and in particular the
computation did not throw). -/
def ExOkP {ε α : Type} (e : Except ε α) (p : α → Prop) : Prop :=
  match e with
  | .ok a => p a
  | .error _ => False

/-- If the fallible computation returns normally, its result satisfies `p`. -/
def ExOkImp {ε α : Type} (e : Except ε α) (p : α → Prop) : Prop :=
  match e with
  | .ok a => p a
  | .error _ => True

/-! ## Capability model and state conversion -/

/-- `_.isArray(v) && v.length === 2 && _.isFinite(v[0]) && _.isFinite(v[1])`
(used both by `calculateCapabilties` and by the `xy` command check). -/
def validXyPair : Option JVal → Bool
  | some (.arr [a, b]) => isFiniteO (some a) && isFiniteO (some b)
  | _ => false

/-- `calculateCapabilties(state)` (hue-light.js lines 621-638): `BRI` always;
`XY` iff `xy` is a two-element finite array; `HS` iff `hue` and `sat` are
finite numbers; `CT` iff `ct` is a finite number. -/
def calculateCapabilties (state : StateObj) : ℕ :=
  let caps := capBRI
  let caps := if validXyPair state.xy then caps ||| capXY else caps
  let caps := if isFiniteO state.hue && isFiniteO state.sat then caps ||| capHS else caps
  if isFiniteO state.ct then caps ||| capCT else caps

/-- `convertHueState(hueInfo, isLight)` (hue-light.js lines 647-684): copy the
whitelisted keys from `state` (lights) or `action` (groups); lodash `_.reduce`
over a missing object yields the empty accumulator.  When `colormode` is
absent, the default is computed from `hueInfo.state.ct` — note: `state`, not
the selected object — which throws if `hueInfo.state` is missing. -/
def convertHueState (hueInfo : HueInfo) (isLight : Bool) : Except JsErr StateObj :=
  let hueState := if isLight then hueInfo.state else hueInfo.action
  let st : StateObj :=
    match hueState with
    | none => {}
    | some raw =>
        { on' := raw.on', bri := raw.bri, hue := raw.hue, sat := raw.sat,
          xy := raw.xy, ct := raw.ct, colormode := raw.colormode }
  match st.colormode with
  | some cm => .ok { st with colormode := some cm }
  | none =>
      match hueInfo.state with
      | none => .error (.typeError "Cannot read property ct of undefined")
      | some raw0 =>
          .ok { st with colormode := some (.str (if raw0.ct.isSome then "ct" else "bri")) }

/-- The `LightItem` constructor (hue-light.js lines 711-742): convert the raw
state, derive the capability bitmask, and copy the metadata (for lights,
`info.reachable` is read from `hueInfo.state.reachable`, which is known to be
an object whenever `convertHueState` succeeded for a light). -/
def mkLightItem (id : String) (hueInfo : HueInfo) (isLight : Bool) :
    Except JsErr LightItem := do
  let state ← convertHueState hueInfo isLight
  let info : Info :=
    { id := hueInfo.id, name := hueInfo.name, reachable := .bool true,
      capability := calculateCapabilties state }
  let info :=
    if isLight then
      { info with uniqueid := hueInfo.uniqueid, type := hueInfo.type,
                  modelid := hueInfo.modelid,
                  reachable :=
                    match hueInfo.state with
                    | some raw => optGet raw.reachable
                    | none => .undefined }
    else
      { info with cls := hueInfo.cls, type := hueInfo.type,
                  lights := hueInfo.lights }
  return { id := id, modified := .num 0, isLight := isLight, info := info,
           state := state }

/-- `updateInfo(hueInfo)` (hue-light.js lines 758-787).  Returns the updated
item and whether the `update` notification was emitted.  The reachable-flip
handling at lines 766-770 sets `isUpdated = true`, but line 773 recomputes
`isUpdated` from scratch (`isUpdated = !_.isEqual(...)`), discarding that
flag — translated as written. -/
def updateInfo (item : LightItem) (hueInfo : HueInfo) (uptime : ℚ) :
    Except JsErr (LightItem × Bool) := do
  -- lines 759-761: ignore changes until the `modified` deadline has expired
  if item.modified.geB (.num uptime) then
    return (item, false)
  let newState ← convertHueState hueInfo item.isLight
  -- lines 766-770: reachable flip (`isUpdated = true` here is dead code)
  let item ←
    if item.isLight then
      match hueInfo.state with
      | none => throw (.typeError "Cannot read property reachable of undefined")
      | some raw =>
          if ¬ (optGet raw.reachable).strictEq item.info.reachable then
            pure { item with info.reachable := optGet raw.reachable }
          else
            pure item
    else
      pure item
  -- line 773: recomputed from scratch, overwriting the reachable flag
  let isUpdated := ¬ stateObjEq item.state newState
  let item :=
    if isUpdated then
      { item with state := newState,
                  info.capability := calculateCapabilties newState }
    else item
  -- lines 780-781: metadata refreshed unconditionally
  let item := { item with info.name := hueInfo.name, info.type := hueInfo.type }
  return (item, isUpdated)

/-! ## Command normalization -/

/-- A structured command object, restricted to the keys `setColor` and the
parse functions read (`alert`/`effect` are not read by this variant). -/
structure CmdObj where
  on' : Option JVal := none
  xy : Option JVal := none
  x : Option JVal := none
  y : Option JVal := none
  hue : Option JVal := none
  red : Option JVal := none
  green : Option JVal := none
  blue : Option JVal := none
  hex : Option JVal := none
  sat : Option JVal := none
  saturation : Option JVal := none
  bri : Option JVal := none
  brightness : Option JVal := none
  ct : Option JVal := none
  mirek : Option JVal := none
  mired : Option JVal := none
  kelvin : Option JVal := none
  duration : Option JVal := none
deriving Repr, Inhabited

/-- The value passed to `setColor`: a boolean, a string, a number, a
structured object, or `undefined`. -/
inductive CmdInput where
  | bool (b : Bool)
  | str (s : String)
  | num (n : JNum)
  | obj (o : CmdObj)
  | undefined
deriving Repr, Inhabited

/-- The external color-conversion library functions reachable from the
embedded code (`color-space`, `color-temp`, `color-convert`).  They are pure
third-party functions, kept abstract: every theorem below holds for any
choice of them. -/
structure ColorConv where
  xyyHsv : JVal × JVal × JVal → JVal × JVal × JVal
  hsvXyy : JVal × JVal × JVal → JVal × JVal × JVal
  temp2rgb : JNum → JVal × JVal × JVal
  rgbHsl : JVal × JVal × JVal → JVal × JVal × JVal
  hsvRgb : JVal × JVal × JVal → JVal × JVal × JVal
  rgbHex : JVal × JVal × JVal → String
  rgbKeyword : JVal × JVal × JVal → String

/-- A concrete (trivial) instance of the conversion oracle, used to
instantiate the universally quantified theorems on concrete inputs. -/
def idConv : ColorConv :=
  { xyyHsv := id, hsvXyy := id,
    temp2rgb := fun _ => (.jnum (.num 0), .jnum (.num 0), .jnum (.num 0)),
    rgbHsl := id, hsvRgb := id,
    rgbHex := fun _ => "", rgbKeyword := fun _ => "" }

/-- `v[i]` on a possibly-absent JS value: reading an index of `undefined`
throws; an index of an array (or a character of a string) is returned,
out-of-range giving `undefined`; indexing any other value gives
`undefined`. -/
def jsIndexE (v : Option JVal) (i : ℕ) : Except JsErr JVal :=
  match v with
  | none => .error (.typeError "Cannot read property of undefined")
  | some (.arr xs) => .ok (xs.getD i .undefined)
  | some (.str s) =>
      .ok (match s.toList.get? i with
           | some c => .str (String.mk [c])
           | none => .undefined)
  | some _ => .ok .undefined

/-- `v[i]` where `v` is known to be an object (non-throwing index, used on
`input.xy` after `validXyPair` has established it is an array). -/
def jsIndexD (v : Option JVal) (i : ℕ) : JVal :=
  match v with
  | some (.arr xs) => xs.getD i .undefined
  | _ => .undefined

/-- The initial `xyY` value of `parseColorRGB` (hue-light.js lines 807-813):
from `this.state.xy` and `this.state.bri` when the device has the `XY`
capability, otherwise through `colorSpace.hsv.xyy([0, 0, bri%])`.
Note: the JS expression `(this.state.bri * 100) / 0xFF` multiplies first, so
it is exact for integral `bri`. -/
def xyYInit (conv : ColorConv) (item : LightItem) :
    Except JsErr (JVal × JVal × JVal) :=
  let briPct : JNum :=
    ((optGet item.state.bri).toNumber.mul (.num 100)).div (.num 255)
  if item.info.capability &&& capXY ≠ 0 then do
    let x0 ← jsIndexE item.state.xy 0
    let x1 ← jsIndexE item.state.xy 1
    return (x0, x1, .jnum briPct)
  else
    .ok (conv.hsvXyy (.jnum (.num 0), .jnum (.num 0), .jnum briPct))

/-- `parseColorRGB(input, output)` (hue-light.js lines 796-920), translated
with its actual runtime behavior under lodash:

* lines 797-800: without the `XY` or `HS` capability the function returns
  `false` untouched;
* lines 817-824: a well-formed `input.xy` pair is consumed;
* lines 827-833: otherwise the guard `_.ixFinite(input.x)` is evaluated —
  lodash has no `ixFinite` (a typo for `isFinite`), so `undefined` is called
  and a `TypeError` is thrown.  The `hue`, `red`/`green`/`blue` and `hex`
  branches at lines 839-872 are consequently unreachable (the
  `red`/`green`/`blue` branch would additionally crash on
  `colorSpace.xyY.rgb`, which is also undefined — the key is `xyy`);
* lines 876-901: saturation and brightness adjustments (reachable only
  through the `xy` branch);
* lines 903-918: the output is written in the device's native
  representation; the misplaced parenthesis noted at `limitValue1` makes
  every bound-check here a no-op. -/
def parseColorRGB (conv : ColorConv) (item : LightItem) (input : CmdObj)
    (output : StateObj) : Except JsErr (Bool × StateObj) :=
  if item.info.capability &&& capXY = 0 ∧ item.info.capability &&& capHS = 0 then
    .ok (false, output)
  else
    match xyYInit conv item with
    | .error e => .error e
    | .ok xyY =>
      if validXyPair input.xy then
        let xyY : JVal × JVal × JVal :=
          (.jnum (limitValue (jsIndexD input.xy 0).toNumber (.num 0) (.num 1)),
           .jnum (limitValue (jsIndexD input.xy 1).toNumber (.num 0) (.num 1)),
           xyY.2.2)
        -- saturation (lines 876-889)
        let (hsvOpt, xyY) :=
          if isFiniteO input.sat then
            let hsv := conv.xyyHsv xyY
            let hsv := (hsv.1,
              .jnum (limitValue (optGet input.sat).toNumber (.num 0) (.num 100)),
              hsv.2.2)
            (some hsv, conv.hsvXyy hsv)
          else if isFiniteO input.saturation then
            let hsv := conv.xyyHsv xyY
            let hsv := (hsv.1,
              .jnum (limitValue (optGet input.saturation).toNumber (.num 0) (.num 100)),
              hsv.2.2)
            (some hsv, conv.hsvXyy hsv)
          else (none, xyY)
        -- `changed` is `true` on this path, so the line 892 early exit is skipped
        -- brightness override (lines 896-901)
        let xyY : JVal × JVal × JVal :=
          if isFiniteO input.bri then (xyY.1, xyY.2.1, optGet input.bri)
          else if isFiniteO input.brightness then (xyY.1, xyY.2.1, optGet input.brightness)
          else xyY
        -- output (lines 903-918)
        if item.info.capability &&& capXY ≠ 0 then
          .ok (true, { output with
            colormode := some (.str "xy"),
            xy := some (.arr
              [limitValue1 ((((.num 10000 : JNum).mul xyY.1.toNumber).round).div (.num 10000)),
               limitValue1 ((((.num 10000 : JNum).mul xyY.2.1.toNumber).round).div (.num 10000))]),
            bri := some (limitValue1 ((xyY.2.2.toNumber.mul (.num (255/100))).round)) })
        else
          let hsv := match hsvOpt with
            | some h => h
            | none => conv.xyyHsv xyY
          .ok (true, { output with
            colormode := some (.str "hsv"),
            hue := some (limitValue1 ((hsv.1.toNumber.mul (.num (65535/360))).round)),
            sat := some (limitValue1 ((hsv.2.1.toNumber.mul (.num (255/100))).round)),
            bri := some (limitValue1 ((xyY.2.2.toNumber.mul (.num (255/100))).round)) })
      else
        .error (.typeError "_.ixFinite is not a function")

/-- `parseColorTemp(input, output)` (hue-light.js lines 929-975). -/
def parseColorTemp (item : LightItem) (input : CmdObj) (output : StateObj) :
    Bool × StateObj :=
  if item.info.capability &&& capCT = 0 then
    (false, output)
  else
    let ct := (optGet item.state.ct).toNumber
    let bri := (optGet item.state.bri).toNumber
    let (ct, changed) :=
      if isFiniteO input.ct then ((optGet input.ct).toNumber, true)
      else if isFiniteO input.mirek then ((optGet input.mirek).toNumber, true)
      else if isFiniteO input.mired then ((optGet input.mired).toNumber, true)
      else if isFiniteO input.kelvin then
        ((JNum.num 1000000).div
          (limitValue (optGet input.kelvin).toNumber (.num 2000) (.num 8000)), true)
      else (ct, false)
    let bri :=
      if isFiniteO input.bri then
        (((optGet input.bri).toNumber).mul (.num 255)).div (.num 100)
      else if isFiniteO input.brightness then
        (((optGet input.brightness).toNumber).mul (.num 255)).div (.num 100)
      else bri
    if ¬ changed then (false, output)
    else
      (true, { output with
        colormode := some (.str "ct"),
        ct := some (.jnum (limitValue ct.round (.num 125) (.num 500))),
        bri := some (.jnum (limitValue bri.round (.num 0) (.num 255))) })

/-- `parseBrightness(input, output)` (hue-light.js lines 984-1005): the
`bri`/`brightness` command value is scaled by `0xFF / 100` (multiplying
first: `(input.bri * 0xFF) / 100`), rounded and clamped to `[0, 255]`. -/
def parseBrightness (item : LightItem) (input : CmdObj) (output : StateObj) :
    Bool × StateObj :=
  let bri := (optGet item.state.bri).toNumber
  let (bri, changed) :=
    if isFiniteO input.bri then
      ((((optGet input.bri).toNumber).mul (.num 255)).div (.num 100), true)
    else if isFiniteO input.brightness then
      ((((optGet input.brightness).toNumber).mul (.num 255)).div (.num 100), true)
    else (bri, false)
  if ¬ changed then (false, output)
  else (true, { output with bri := some (.jnum (limitValue bri.round (.num 0) (.num 255))) })

/-! ## `setColor` -/

/-- The device-bound intent built with `nodeHueApi.lightState.create()`
(hue-light.js lines 1068-1100): which setters were invoked and with what. -/
structure SentState where
  on' : Bool
  bri : Option JVal := none
  ct : Option JVal := none
  xy : Option JVal := none
  hue : Option JVal := none
  sat : Option JVal := none
  transition : Option JVal := none
deriving Repr, Inhabited

/-- The observable outcome of a `setColor` call: the updated item, whether a
`warning` was emitted, the `sendToLight` intent (target id and new state),
whether `change` was emitted, and the returned `newValues`. -/
structure SetColorOut where
  item : LightItem
  warned : Bool
  sent : Option (String × SentState)
  changed : Bool
  ret : Option StateObj
deriving Repr, Inhabited

/-- lodash `_.merge(this.state, newValues)` on our shapes: a key present in
`newValues` overwrites, an absent key — or one whose source value is
`undefined`, which lodash skips — keeps the old value.  (The `xy` values
merged here are always two-element arrays on both sides, for which lodash's
element-wise array merge coincides with replacement; an `undefined` array
element could only arise from a NaN-producing conversion library, a corner
none of the theorems below evaluates.) -/
def mergeState (s nv : StateObj) : StateObj :=
  let f : Option JVal → Option JVal → Option JVal := fun old new =>
    match new with
    | some .undefined => old
    | some v => some v
    | none => old
  { on' := f s.on' nv.on', bri := f s.bri nv.bri, hue := f s.hue nv.hue,
    sat := f s.sat nv.sat, xy := f s.xy nv.xy, ct := f s.ct nv.ct,
    colormode := f s.colormode nv.colormode }

/-- Input normalization at the top of `setColor` (hue-light.js lines
1019-1038): booleans, the strings `"on"`/`"off"` and numbers become command
objects; any other non-object input is rejected (`none` = warning path). -/
def normalizeInput : CmdInput → Option CmdObj
  | .bool b => some { on' := some (.bool b) }
  | .str s =>
      if s = "on" ∨ s = "off" then some { on' := some (.bool (s = "on")) }
      else none
  | .num n => some { on' := some (.bool true), bri := some (.jnum n) }
  | .obj o => some o
  | .undefined => none

/-- Lines 1054-1107 of `setColor`: state merge (or off), echo-deadline
arming, intent construction and emission. -/
def finishSetColor (item : LightItem) (o : CmdObj) (nv : StateObj) (uptime : ℚ) :
    SetColorOut :=
  -- lines 1054-1062: only copy the new values if the new state is on
  let item :=
    if (optGet nv.on').strictEq (.bool true) then
      { item with state := mergeState item.state nv }
    else
      { item with state.on' := some (.bool false) }
  -- line 1065: arm the echo deadline
  let item := { item with modified := .num (uptime + 2) }
  -- lines 1068-1092: build the device-bound intent
  let st := item.state
  let sent : SentState :=
    if JVal.truthyO st.on' then
      { on' := true, bri := some (optGet st.bri),
        ct := if (optGet st.colormode).strictEq (.str "ct") then st.ct else none,
        xy := if ¬ (optGet st.colormode).strictEq (.str "ct") ∧
                 (optGet st.colormode).strictEq (.str "xy") then st.xy else none,
        hue := if ¬ (optGet st.colormode).strictEq (.str "ct") ∧
                  ¬ (optGet st.colormode).strictEq (.str "xy") ∧
                  (optGet st.colormode).strictEq (.str "hue") then st.hue else none,
        sat := if ¬ (optGet st.colormode).strictEq (.str "ct") ∧
                  ¬ (optGet st.colormode).strictEq (.str "xy") ∧
                  (optGet st.colormode).strictEq (.str "hue") then st.sat else none }
    else
      { on' := false }
  -- lines 1095-1100: transition and deadline extension for a positive
  -- numeric duration (`Math.round(1 + duration/1000)` additional seconds)
  let (sent, item) :=
    match o.duration with
    | some (.jnum d) =>
        if d.gtB (.num 0) then
          ({ sent with transition := some (.jnum d) },
           { item with modified :=
              item.modified.add (((JNum.num 1).add (d.div (.num 1000))).round) })
        else (sent, item)
    | _ => (sent, item)
  -- lines 1103-1107
  { item := item, warned := false, sent := some (item.info.id, sent),
    changed := true, ret := some nv }

/-- `setColor(input)` (hue-light.js lines 1013-1108).  Unrecognized
non-object inputs take the warning path (lines 1034-1037); otherwise the
parse pipeline runs (lines 1041-1048), `on` is copied when explicitly
boolean (lines 1051-1052), and `finishSetColor` applies the result. -/
def setColor (conv : ColorConv) (item : LightItem) (input : CmdInput)
    (uptime : ℚ) : Except JsErr SetColorOut :=
  match normalizeInput input with
  | none =>
      .ok { item := item, warned := true, sent := none, changed := false,
            ret := none }
  | some o =>
      -- line 1015: `newValues = { on: this.state.on }`
      let nv0 : StateObj := { on' := item.state.on' }
      match parseColorRGB conv item o nv0 with
      | .error e => .error e
      | .ok (r1, nv) =>
          let nv :=
            if r1 then nv
            else
              let (r2, nv) := parseColorTemp item o nv
              if r2 then nv else (parseBrightness item o nv).2
          let nv :=
            match o.on' with
            | some (.bool b) => { nv with on' := some (.bool b) }
            | _ => nv
          .ok (finishSetColor item o nv uptime)

/-! ## `getStateMessage` -/

/-- `this.info.capability & LightCapability.HUE` (hue-light.js line 1127):
the `LightCapability` enum has no member `HUE` (the flag is named `HS`), so
the expression is `capability & undefined`, which is `0` — the branch is
never taken. -/
def capBandUndefinedHUE (_ : ℕ) : Bool := false

/-- The `xyY` computation of `getStateMessage` (hue-light.js lines
1119-1148). -/
def computeXyY (conv : ColorConv) (item : LightItem) :
    Except JsErr (JVal × JVal × JVal) :=
  let bri : JNum :=
    ((optGet item.state.bri).toNumber.mul (.num 100)).div (.num 255)
  if item.info.capability &&& capXY ≠ 0 then do
    let x0 ← jsIndexE item.state.xy 0
    let x1 ← jsIndexE item.state.xy 1
    return (x0, x1, .jnum bri)
  else if capBandUndefinedHUE item.info.capability then
    -- line 1128 is unreachable (see `capBandUndefinedHUE`)
    .ok (.jnum (.num 0), .jnum (.num 0), .jnum bri)
  else if item.info.capability &&& capCT ≠ 0 then
    let temp := (JNum.num 1000000).div (optGet item.state.ct).toNumber
    let rgb := conv.temp2rgb temp
    let hsv := conv.rgbHsl rgb
    let hsv := (hsv.1, JVal.jnum (.num 10), JVal.jnum bri)
    .ok (conv.hsvXyy hsv)
  else
    .ok (conv.hsvXyy (.jnum (.num 0), .jnum (.num 0), .jnum bri))

/-- The `mired`/`kelvin` payload fields (hue-light.js lines 1212-1215):
present exactly when `this.state.colormode === 'ct'`, with values
`Math.round(this.state.ct)` and `Math.round(1000000 / this.state.ct)`. -/
def ctPayloadFields (state : StateObj) : Option JNum × Option JNum :=
  if (optGet state.colormode).strictEq (.str "ct") then
    (some ((optGet state.ct).toNumber.round),
     some (((JNum.num 1000000).div (optGet state.ct).toNumber).round))
  else (none, none)

/-- The capability list of the state message (hue-light.js lines 1170-1174):
the flag names, lowercased, in enum order. -/
def capsToList (caps : ℕ) : List String :=
  (if caps &&& capBRI ≠ 0 then ["bri"] else []) ++
  (if caps &&& capXY ≠ 0 then ["xy"] else []) ++
  (if caps &&& capHS ≠ 0 then ["hs"] else []) ++
  (if caps &&& capCT ≠ 0 then ["ct"] else [])

/-- The `payload` part of the state message (lines 1178-1190 plus
1212-1215). -/
structure Payload where
  on' : JVal
  reachable : JVal
  bri : JNum
  xy : JNum × JNum
  hsv : JNum × JNum × JNum
  rgb : JNum × JNum × JNum
  hex : String
  color : String
  mired : Option JNum := none
  kelvin : Option JNum := none
deriving Repr, Inhabited

/-- The message returned by `getStateMessage` (lines 1161-1217). -/
structure StateMsg where
  id : String
  infoName : String
  capability : List String
  group : Bool
  payload : Payload
  state : StateObj
deriving Repr, Inhabited

/-- Lines 1150-1217 of `getStateMessage`: the payload and message built from
the resolved `xyY` triple.  (`modelname` is looked up with the always-
`undefined` key `retVal.modelid` — a slip for `retVal.info.modelid` — and is
therefore omitted.) -/
def buildStateMessage (conv : ColorConv) (item : LightItem)
    (xyY : JVal × JVal × JVal) : StateMsg :=
  let bri : JNum :=
    ((optGet item.state.bri).toNumber.mul (.num 100)).div (.num 255)
  let hsv := conv.xyyHsv xyY
  let hsv := (hsv.1, hsv.2.1, JVal.jnum bri)
  -- line 1156: `_.isArray(rgb)` is always true for the triples the
  -- conversion library returns, so the `[0,0,0]` fallback is never taken
  let rgb := conv.hsvRgb hsv
  let ctf := ctPayloadFields item.state
  { id := item.id,
    infoName := item.info.name,
    capability := capsToList item.info.capability,
    group := ¬ item.isLight,
    payload :=
      { on' := optGet item.state.on',
        reachable := item.info.reachable,
        bri := (((optGet item.state.bri).toNumber.mul (.num 100)).div (.num 255)).round,
        xy := ((((JNum.num 10000).mul xyY.1.toNumber).round).div (.num 10000),
               (((JNum.num 10000).mul xyY.2.1.toNumber).round).div (.num 10000)),
        hsv := (hsv.1.toNumber.round, hsv.2.1.toNumber.round, hsv.2.2.toNumber.round),
        rgb := (rgb.1.toNumber.round, rgb.2.1.toNumber.round, rgb.2.2.toNumber.round),
        hex := conv.rgbHex rgb,
        color := conv.rgbKeyword rgb,
        mired := ctf.1,
        kelvin := ctf.2 },
    state := item.state }

/-- `getStateMessage()` (hue-light.js lines 1115-1218). -/
def getStateMessage (conv : ColorConv) (item : LightItem) :
    Except JsErr StateMsg :=
  match computeXyY conv item with
  | .error e => .error e
  | .ok xyY => .ok (buildStateMessage conv item xyY)

/-! ## Poll engine (`hue-server.js`, `src/unnamed/part_000`) -/

/-- `parseInt(s, 10)`: optional leading whitespace and sign, then the longest
digit prefix; `NaN` when no digit is found. -/
def jsParseInt (s : String) : JNum :=
  let cs := s.toList.dropWhile (fun c => c = ' ' ∨ c = '\t' ∨ c = '\n')
  let (neg, cs) :=
    match cs with
    | '-' :: rest => (true, rest)
    | '+' :: rest => (false, rest)
    | _ => (false, cs)
  let digits := cs.takeWhile Char.isDigit
  if digits.isEmpty then .nan
  else
    let v : ℕ := digits.foldl (fun acc c => acc * 10 + (c.toNat - 48)) 0
    .num (if neg then -(v : ℚ) else (v : ℚ))

/-- Poll-interval normalization in the `LightServer` constructor
(hue-server.js lines 32-38).  A numeric string is parsed; then the guard is
`typeof interval !== 'number' || isNaN(interval) || self.interval < 500` —
`self.interval` (not `self.config.interval`) is `undefined`, so the
comparison is always `false` and sub-500 numeric intervals are kept. -/
def lightServerConfigInterval (interval : JVal) : JVal :=
  let interval : JVal :=
    match interval with
    | .str s => .jnum (jsParseInt s)
    | v => v
  match interval with
  | .jnum n => if n.isNaNB then .jnum (.num 500) else .jnum n
  | _ => .jnum (.num 500)

/-- Poll-interval normalization of the `src/unnamed/part_000` variant
(lines 83-94): non-numbers and `NaN` default to 10000, then values below 500
are clamped up to 500 (`-Infinity` is a number below 500, so it is clamped;
`Infinity` is kept). -/
def part000ConfigInterval (interval : JVal) : JVal :=
  let interval : JVal :=
    match interval with
    | .str s => .jnum (jsParseInt s)
    | v => v
  match interval with
  | .jnum (.num q) => if q < 500 then .jnum (.num 500) else .jnum (.num q)
  | .jnum .nan => .jnum (.num 10000)
  | .jnum .ninf => .jnum (.num 500)
  | .jnum .inf => .jnum .inf
  | _ => .jnum (.num 10000)

/-- `createLightID(hueInfo, isLight)` (hue-server.js lines 15-17). -/
def createLightID (hueInfo : HueInfo) (isLight : Bool) : String :=
  (if isLight then "light" else "group") ++ hueInfo.id

/-- The observable outcome of one `pollChanges` tick: the value passed to the
done callback, the resulting lights map, and the per-light notifications. -/
structure PollResult where
  callback : Option String
  lights : List (String × LightItem)
  newIds : List String
  updatedIds : List String
deriving Repr, Inhabited

/-- `processItems(list, isLight)` (hue-server.js lines 102-119): group 0 is
skipped; unknown ids construct a new `LightItem` (with a `new`
notification); known ids are fed to `updateInfo`. -/
def processItems (lights : List (String × LightItem)) (newIds updatedIds : List String)
    (list : List HueInfo) (isLight : Bool) (uptime : ℚ) :
    Except JsErr (List (String × LightItem) × List String × List String) :=
  match list with
  | [] => .ok (lights, newIds, updatedIds)
  | hueInfo :: rest =>
      if ¬ isLight ∧ hueInfo.id = "0" then
        processItems lights newIds updatedIds rest isLight uptime
      else
        let lightID := createLightID hueInfo isLight
        match (lights.find? (fun p => p.1 = lightID)) with
        | none => do
            let light ← mkLightItem lightID hueInfo isLight
            processItems (lights ++ [(lightID, light)]) (newIds ++ [lightID])
              updatedIds rest isLight uptime
        | some (_, light) => do
            let (light, updated) ← updateInfo light hueInfo uptime
            let lights := lights.map (fun p => if p.1 = lightID then (lightID, light) else p)
            processItems lights newIds
              (if updated then updatedIds ++ [lightID] else updatedIds)
              rest isLight uptime

/-- `pollChanges(callback)` (hue-server.js lines 94-139), with the two bridge
fetches supplied as parameters: a failed lights fetch aborts the tick before
the groups fetch; a failed groups fetch aborts before any processing; on
success, lights then groups are processed and the callback receives `null`
(`none`). -/
def pollChanges (lightsRes : Except String (List HueInfo))
    (groupsRes : Except String (List HueInfo))
    (lights : List (String × LightItem)) (uptime : ℚ) :
    Except JsErr PollResult :=
  match lightsRes with
  | .error e => .ok { callback := some e, lights := lights, newIds := [], updatedIds := [] }
  | .ok lightsInfo =>
      match groupsRes with
      | .error e => .ok { callback := some e, lights := lights, newIds := [], updatedIds := [] }
      | .ok groupsInfo => do
          let (lights, newIds, updatedIds) ←
            processItems lights [] [] lightsInfo true uptime
          let (lights, newIds, updatedIds) ←
            processItems lights newIds updatedIds groupsInfo false uptime
          return { callback := none, lights := lights, newIds := newIds,
                   updatedIds := updatedIds }

/-! ## Concrete fixtures

Concrete lights, bridge snapshots and commands used to instantiate the
theorems (mirroring the shapes used by `test/hue-light.test.js`). -/

/-- Raw bridge state of a plain dimmable (brightness-only) light. -/
def rawB : RawObj :=
  { on' := some (.bool true), bri := some (.jnum (.num 254)),
    colormode := some (.str "bri"), reachable := some (.bool true) }

/-- Bridge snapshot of the brightness-only light. -/
def hueInfoB : HueInfo :=
  { id := "1", name := "Test 1", type := "Dimmable light", state := some rawB }

/-- The same snapshot with only the `reachable` flag flipped. -/
def hueInfoBFlip : HueInfo :=
  { hueInfoB with state := some { rawB with reachable := some (.bool false) } }

/-- The brightness-only `LightItem` (capability `BRI`). -/
def itemB : LightItem :=
  { id := "light1", modified := .num 0, isLight := true,
    info := { id := "1", name := "Test 1", reachable := .bool true,
              capability := 1, type := "Dimmable light" },
    state := { on' := some (.bool true), bri := some (.jnum (.num 254)),
               colormode := some (.str "bri") } }

/-- `itemB` is exactly what the constructor builds from `hueInfoB`. -/
theorem mkLightItem_itemB : mkLightItem "light1" hueInfoB true = .ok itemB := rfl

/-- A hue/saturation-only light (capability `BRI | HS`), as in the
`parseColorRGB: HS` tests. -/
def itemHS : LightItem :=
  { id := "light2", modified := .num 0, isLight := true,
    info := { id := "2", name := "Test 2", reachable := .bool true,
              capability := 5, type := "Extended color light" },
    state := { on' := some (.bool true), bri := some (.jnum (.num 1)),
               hue := some (.jnum (.num 0)), sat := some (.jnum (.num 0)),
               colormode := some (.str "hs") } }

/-- An xy-capable light (capability `BRI | XY`), as in the
`parseColorRGB: XY` tests. -/
def itemXY : LightItem :=
  { id := "light3", modified := .num 0, isLight := true,
    info := { id := "3", name := "Test 3", reachable := .bool true,
              capability := 3, type := "Color light" },
    state := { on' := some (.bool true), bri := some (.jnum (.num 254)),
               xy := some (.arr [.jnum (.num (1/2)), .jnum (.num (1/2))]),
               colormode := some (.str "xy") } }

/-- A color-temperature-capable light whose current `colormode` is `hs`,
not `ct` (capability `BRI | HS | CT`, like the default test light). -/
def itemCThs : LightItem :=
  { id := "light4", modified := .num 0, isLight := true,
    info := { id := "4", name := "Test 4", reachable := .bool true,
              capability := 13, type := "Extended color light" },
    state := { on' := some (.bool true), bri := some (.jnum (.num 254)),
               hue := some (.jnum (.num 43812)), sat := some (.jnum (.num 254)),
               ct := some (.jnum (.num 153)), colormode := some (.str "hs") } }

/-- A color-temperature light currently in `ct` mode
(capability `BRI | CT`). -/
def itemCT2 : LightItem :=
  { id := "light5", modified := .num 0, isLight := true,
    info := { id := "5", name := "Test 5", reachable := .bool true,
              capability := 9, type := "Color temperature light" },
    state := { on' := some (.bool true), bri := some (.jnum (.num 254)),
               ct := some (.jnum (.num 153)), colormode := some (.str "ct") } }

/-- The `newValues` accumulator as `setColor` initializes it for a light
that is currently on. -/
def nvInit : StateObj := { on' := some (.bool true) }

/-- The command `{xy: [0.3, 0.3]}`. -/
def cmdXY00 : CmdObj :=
  { xy := some (.arr [.jnum (.num (3/10)), .jnum (.num (3/10))]) }

/-- The command `{sat: 150}`. -/
def cmdSat150 : CmdObj := { sat := some (.jnum (.num 150)) }

/-- The command `{kelvin: 100}`. -/
def cmdKelvin100 : CmdObj := { kelvin := some (.jnum (.num 100)) }

/-- The command `{bri: 100}`. -/
def cmdBri100 : CmdObj := { bri := some (.jnum (.num 100)) }

/-- The command `{bri: 50, duration: 1000}`. -/
def cmdBri50Dur1000 : CmdObj :=
  { bri := some (.jnum (.num 50)), duration := some (.jnum (.num 1000)) }

/-! ## Statement helpers -/

/-- The `modified` deadline of a `setColor` outcome (`none` when the call
threw). -/
def scModified : Except JsErr SetColorOut → Option JNum
  | .ok r => some r.item.modified
  | .error _ => none

/-- The stored `state.bri` after a `setColor` call (`none` when the call
threw). -/
def scStateBri : Except JsErr SetColorOut → Option JVal
  | .ok r => r.item.state.bri
  | .error _ => none

/-- The `mired` payload field of a state message (`some NaN` sentinel when
the call threw, so that `= none` can only hold for a normal return). -/
def msgMired : Except JsErr StateMsg → Option JNum
  | .ok m => m.payload.mired
  | .error _ => some .nan

/-- The echo deadline the code computes for a structured command
(hue-light.js lines 1065 and 1095-1100): `uptime + 2`, plus
`Math.round(1 + duration/1000)` additional seconds for a positive numeric
`duration`. -/
def echoDeadlineObj (uptime : ℚ) (o : CmdObj) : JNum :=
  match o.duration with
  | some (.jnum d) =>
      if d.gtB (.num 0) then
        (JNum.num (uptime + 2)).add (((JNum.num 1).add (d.div (.num 1000))).round)
      else .num (uptime + 2)
  | _ => .num (uptime + 2)

/-- The echo deadline for an arbitrary `setColor` input (non-object inputs
normalize to objects without a `duration`). -/
def echoDeadline (uptime : ℚ) : CmdInput → JNum
  | .obj o => echoDeadlineObj uptime o
  | _ => .num (uptime + 2)

/-! ## Claim theorems -/

/-- C3: the brightness-only command `{bri: 100}` stores device brightness
255, not 254 — the code scales by `0xFF/100` and clamps to `[0, 255]`,
while the claim (with the spec and the repository's own test, which expects
`output.bri` to equal 254) uses the `[0, 254]` scale. -/
theorem claim_C3_bri100_stores_255 :
    scStateBri (setColor idConv itemB (.obj cmdBri100) 10) =
      some (.jnum (.num 255)) ∧
    (255 : ℚ) ≠ 254 := by
  exact ⟨rfl, by norm_num⟩

/-- C4: applying `{sat: 150}` to a color-capable entity does not clamp
anything — it throws a `TypeError`, because the guard reached when `xy` is
absent calls `_.ixFinite`, which does not exist in lodash.  The second
conjunct shows the `{kelvin: 100}` half of the claim against
`parseColorTemp`: kelvin is clamped to 2000 before inversion and the
resulting mired 500 is stored. -/
theorem claim_C4_sat150_throws :
    setColor idConv itemXY (.obj cmdSat150) 10 =
      .error (.typeError "_.ixFinite is not a function") ∧
    parseColorTemp itemCT2 cmdKelvin100 nvInit =
      (true,
        { nvInit with
          colormode := some (.str "ct"),
          ct := some (.jnum (.num 500)),
          bri := some (.jnum (.num 254)) }) := by
  exact ⟨rfl, rfl⟩

/-- C5: past the echo deadline, a snapshot identical to the stored state
except for a flipped `reachable` flag updates `info.reachable` but emits no
notification: the reachable comparison at lines 766-770 sets `isUpdated`,
and line 773 overwrites it with the state-equality result. -/
theorem claim_C5_reachable_flip_no_event :
    updateInfo itemB hueInfoBFlip 10 =
      .ok ({ itemB with info.reachable := .bool false }, false) ∧
    (JVal.bool false).strictEq itemB.info.reachable = false := by
  exact ⟨by with_unfolding_all rfl, rfl⟩

/-- C7: a failed lights fetch (or a failed groups fetch) aborts the poll
tick: the callback receives the error, the lights map is returned unchanged,
and no `new` or `update` notification is produced. -/
theorem claim_C7_fetch_error_aborts_tick :
    (∀ (e : String) (groupsRes : Except String (List HueInfo))
       (lights : List (String × LightItem)) (uptime : ℚ),
       pollChanges (.error e) groupsRes lights uptime =
         .ok { callback := some e, lights := lights, newIds := [],
               updatedIds := [] }) ∧
    (∀ (e : String) (lightsInfo : List HueInfo)
       (lights : List (String × LightItem)) (uptime : ℚ),
       pollChanges (.ok lightsInfo) (.error e) lights uptime =
         .ok { callback := some e, lights := lights, newIds := [],
               updatedIds := [] }) := by
  exact ⟨fun _ _ _ _ => rfl, fun _ _ _ _ => rfl⟩

/-- C8: the poll interval is not floor-clamped: a numeric configuration
value of 100 is stored as 100 (the guard compares the undefined
`self.interval`, not `self.config.interval`, so the `< 500` test is always
false), contradicting the 500 ms floor stated by the claim and by the
code's own comment. -/
theorem claim_C8_interval_100_not_clamped :
    lightServerConfigInterval (.jnum (.num 100)) = .jnum (.num 100) ∧
    ¬ ((100 : ℚ) ≥ 500) := by
  exact ⟨rfl, by norm_num⟩

/-- The `src/unnamed/part_000` variant of the same constructor does clamp:
its stored interval is always at least 500 (supporting that the floor-clamp
is the intended behavior). -/
theorem part000_interval_lower_bound (q : ℚ) :
    part000ConfigInterval (.jnum (.num q)) =
      .jnum (.num (if q < 500 then 500 else q)) ∧
    (500 : ℚ) ≤ if q < 500 then 500 else q := by
  by_cases h : q < 500
  · simp [part000ConfigInterval, h]
  · simp [part000ConfigInterval, h]
    linarith

/-- C10: a command that turns the light off does not merely update the `on`
flag — on an xy-capable entity even the plain shorthand `false` throws (the
`_.ixFinite` guard), leaving the state entirely untouched (`on` is still
`true`). -/
theorem claim_C10_off_command_throws :
    setColor idConv itemXY (.bool false) 10 =
      .error (.typeError "_.ixFinite is not a function") ∧
    itemXY.state.on' = some (.bool true) := by
  exact ⟨rfl, rfl⟩

/-- C1 (counterexample): with `duration = 1000` at uptime 10 the code arms
`modified = 14` (`uptime + 2 + Math.round(1 + duration/1000)`), while the
claim's formula `uptime + 2 + ceil(duration/1000)` gives 13. -/
theorem claim_C1_counterexample :
    scModified (setColor idConv itemB (.obj cmdBri50Dur1000) 10) =
      some (.num 14) ∧
    (14 : ℚ) ≠ 10 + 2 + ((⌈(1000 : ℚ) / 1000⌉ : ℤ) : ℚ) := by
  refine ⟨rfl, ?_⟩
  norm_num

/-- C6 (counterexample): an object command with no recognized field is not
rejected: on a brightness-only light that is on, `setColor({})` emits no
warning, arms the echo deadline (`modified` becomes `uptime + 2 = 12`),
emits the device-bound intent and the `change` notification. -/
theorem claim_C6_counterexample :
    setColor idConv itemB (.obj {}) 10 =
      .ok { item := { itemB with modified := .num 12 },
            warned := false,
            sent := some ("1", { on' := true, bri := some (.jnum (.num 254)) }),
            changed := true,
            ret := some { on' := some (.bool true) } } ∧
    itemB.modified = .num 0 := by
  exact ⟨rfl, rfl⟩

/-- C9 (counterexample): an entity whose capability set contains `CT` but
whose stored `colormode` is `hs` gets no `mired`/`kelvin` payload fields —
the code gates them on `colormode === 'ct'`, not on the capability set. -/
theorem claim_C9_counterexample :
    itemCThs.info.capability &&& capCT ≠ 0 ∧
    msgMired (getStateMessage idConv itemCThs) = none ∧
    exIsOk (getStateMessage idConv itemCThs) = true := by
  refine ⟨by decide, rfl, rfl⟩

/-- Whatever the command and values were, `finishSetColor` never warns,
always emits `change`, always emits a `sendToLight` intent, always returns
the new values, and arms the deadline per the duration formula. -/
theorem finishSetColor_effects (item : LightItem) (o : CmdObj)
    (nv : StateObj) (u : ℚ) :
    (finishSetColor item o nv u).warned = false ∧
    (finishSetColor item o nv u).changed = true ∧
    (finishSetColor item o nv u).sent.isSome = true ∧
    (finishSetColor item o nv u).ret.isSome = true ∧
    (finishSetColor item o nv u).item.modified = echoDeadlineObj u o := by
  unfold finishSetColor echoDeadlineObj
  cases hd : o.duration with
  | none => simp
  | some v =>
      cases v with
      | jnum d =>
          by_cases hg : d.gtB (.num 0) = true
          · simp [hg]
          · simp [hg]
      | undefined => simp
      | bool b => simp
      | str s => simp
      | arr xs => simp

/-- On a command object with no recognized field, `parseColorTemp` and
`parseBrightness` report no change and leave the accumulator untouched. -/
theorem parse_emptyObj_no_change (item : LightItem) (nv : StateObj) :
    parseColorTemp item ({} : CmdObj) nv = (false, nv) ∧
    parseBrightness item ({} : CmdObj) nv = (false, nv) := by
  constructor
  · unfold parseColorTemp
    by_cases h : item.info.capability &&& capCT = 0
    · simp [h]
    · simp [h, isFiniteO]
  · unfold parseBrightness
    simp [isFiniteO]

/-- On a color-capable entity, `parseColorRGB` of a command without a valid
`xy` pair throws (the `_.ixFinite` guard). -/
theorem parseColorRGB_emptyObj_throws (conv : ColorConv) (item : LightItem)
    (nv : StateObj)
    (hc : ¬ (item.info.capability &&& capXY = 0 ∧
             item.info.capability &&& capHS = 0)) :
    ∃ e, parseColorRGB conv item ({} : CmdObj) nv = .error e := by
  unfold parseColorRGB
  rw [if_neg hc]
  cases hx : xyYInit conv item with
  | error e => exact ⟨e, rfl⟩
  | ok xyY =>
      exact ⟨.typeError "_.ixFinite is not a function", by simp [validXyPair]⟩

/-- C6 (amended): (1) a non-object input of unrecognized shape — a string
other than `"on"`/`"off"`, or `undefined` — is rejected with a warning and
has no effect whatsoever: the item (state and deadline included) is returned
unchanged, no intent is sent and no `change` is emitted.  (2) An object
command with no recognized field is never rejected with the warning: on an
entity with neither the `XY` nor the `HS` capability it is processed as an
accepted command — no warning, the echo deadline armed to `uptime + 2`, the
device-bound intent and the `change` notification emitted; (3) on an entity
with the `XY` or the `HS` capability the call instead throws (the
`_.ixFinite` guard), before any state mutation, so no warning and no
notification is emitted either. -/
theorem claim_C6_amended :
    (∀ (conv : ColorConv) (item : LightItem) (uptime : ℚ) (s : String),
       s ≠ "on" → s ≠ "off" →
       setColor conv item (.str s) uptime =
         .ok { item := item, warned := true, sent := none, changed := false,
               ret := none } ∧
       setColor conv item .undefined uptime =
         .ok { item := item, warned := true, sent := none, changed := false,
               ret := none }) ∧
    (∀ (conv : ColorConv) (item : LightItem) (uptime : ℚ),
       item.info.capability &&& capXY = 0 →
       item.info.capability &&& capHS = 0 →
       ExOkP (setColor conv item (.obj {}) uptime) (fun r =>
         r.warned = false ∧ r.changed = true ∧ r.sent.isSome = true ∧
         r.ret.isSome = true ∧ r.item.modified = .num (uptime + 2))) ∧
    (∀ (conv : ColorConv) (item : LightItem) (uptime : ℚ),
       item.info.capability &&& capXY ≠ 0 ∨
         item.info.capability &&& capHS ≠ 0 →
       exIsOk (setColor conv item (.obj {}) uptime) = false) := by
  refine ⟨?_, ?_, ?_⟩
  · intro conv item uptime s h1 h2
    constructor
    · simp [setColor, normalizeInput, h1, h2]
    · rfl
  · intro conv item uptime hXY hHS
    unfold setColor
    dsimp only [normalizeInput]
    have hp : parseColorRGB conv item ({} : CmdObj) { on' := item.state.on' } =
        .ok (false, { on' := item.state.on' }) := by
      unfold parseColorRGB
      rw [if_pos ⟨hXY, hHS⟩]
    rw [hp]
    have hct := (parse_emptyObj_no_change item { on' := item.state.on' }).1
    have hbr := (parse_emptyObj_no_change item { on' := item.state.on' }).2
    simp only [ExOkP, hct, hbr]
    exact ⟨(finishSetColor_effects item _ _ uptime).1,
           (finishSetColor_effects item _ _ uptime).2.1,
           (finishSetColor_effects item _ _ uptime).2.2.1,
           (finishSetColor_effects item _ _ uptime).2.2.2.1,
           (finishSetColor_effects item _ _ uptime).2.2.2.2⟩
  · intro conv item uptime hc
    have hne : ¬ (item.info.capability &&& capXY = 0 ∧
                  item.info.capability &&& capHS = 0) := by
      intro h
      cases hc with
      | inl h1 => exact h1 h.1
      | inr h2 => exact h2 h.2
    obtain ⟨e, hpe⟩ :=
      parseColorRGB_emptyObj_throws conv item { on' := item.state.on' } hne
    unfold setColor
    dsimp only [normalizeInput]
    rw [hpe]
    rfl

/-- C6 witness: part (1) at the rejected string `"test"`, part (2) on the
concrete brightness-only light (no warning, deadline armed to 12, intent and
change emitted), part (3) on the concrete xy-capable light (the call
throws). -/
theorem claim_C6_witness :
    setColor idConv itemB (.str "test") 10 =
      .ok { item := itemB, warned := true, sent := none, changed := false,
            ret := none } ∧
    ExOkP (setColor idConv itemB (.obj {}) 10) (fun r =>
      r.warned = false ∧ r.changed = true ∧ r.sent.isSome = true ∧
      r.ret.isSome = true ∧ r.item.modified = .num (10 + 2)) ∧
    exIsOk (setColor idConv itemXY (.obj {}) 10) = false :=
  ⟨(claim_C6_amended.1 idConv itemB 10 "test" (by decide) (by decide)).1,
   claim_C6_amended.2.1 idConv itemB 10 (by decide) (by decide),
   claim_C6_amended.2.2 idConv itemXY 10 (Or.inl (by decide))⟩

/-- C2: on an entity with the `HS` capability but not `XY`, the command
`{xy: [0.3, 0.3]}` is accepted and transcoded to the device's native
hue/saturation representation: the computed values carry the hue/saturation
colormode with `hue` and `sat` written, and the `xy` field is left
untouched.  The statement is universally quantified over the conversion
library. -/
theorem claim_C2_xy_transcoded_to_hs (conv : ColorConv) (item : LightItem)
    (output : StateObj) (hHS : item.info.capability &&& capHS ≠ 0)
    (hXY : item.info.capability &&& capXY = 0) :
    ExOkP (parseColorRGB conv item cmdXY00 output) (fun r =>
      r.1 = true ∧ r.2.colormode = some (.str "hsv") ∧
      r.2.hue.isSome = true ∧ r.2.sat.isSome = true ∧
      r.2.xy = output.xy) := by
  simp [parseColorRGB, xyYInit, hXY, hHS, cmdXY00, validXyPair, isFiniteO,
        ExOkP, optGet, jsIndexD]

/-- C2 witness: the concrete hue/saturation-only light with the trivial
conversion oracle. -/
theorem claim_C2_witness :
    ExOkP (parseColorRGB idConv itemHS cmdXY00 nvInit) (fun r =>
      r.1 = true ∧ r.2.colormode = some (.str "hsv") ∧
      r.2.hue.isSome = true ∧ r.2.sat.isSome = true ∧
      r.2.xy = nvInit.xy) :=
  claim_C2_xy_transcoded_to_hs idConv itemHS nvInit (by decide) (by decide)

/-- The echo deadline computed by `finishSetColor` depends only on `uptime`
and the command's `duration`, and the call always returns `newValues`. -/
theorem finishSetColor_modified (item : LightItem) (o : CmdObj)
    (nv : StateObj) (u : ℚ) :
    (finishSetColor item o nv u).item.modified = echoDeadlineObj u o ∧
    (finishSetColor item o nv u).ret = some nv := by
  unfold finishSetColor echoDeadlineObj
  cases hd : o.duration with
  | none => simp
  | some v =>
      cases v with
      | jnum d =>
          by_cases hg : d.gtB (.num 0) = true
          · simp [hg]
          · simp [hg]
      | undefined => simp
      | bool b => simp
      | str s => simp
      | arr xs => simp

/-- A normalized command object carries the original object's `duration`
(the primitive shorthands normalize to objects without one), so the code's
deadline formula agrees with `echoDeadline` on the original input. -/
theorem echoDeadline_normalize (input : CmdInput) (o : CmdObj) (u : ℚ)
    (hn : normalizeInput input = some o) :
    echoDeadlineObj u o = echoDeadline u input := by
  cases input with
  | bool b =>
      simp [normalizeInput] at hn
      subst hn
      rfl
  | str s =>
      simp only [normalizeInput] at hn
      split at hn
      · cases hn
        rfl
      · cases hn
  | num n =>
      simp [normalizeInput] at hn
      subst hn
      rfl
  | obj o' =>
      simp [normalizeInput] at hn
      subst hn
      rfl
  | undefined => cases hn

/-- C1 (amended): (1) every `setColor` call that returns normally with an
accepted command arms the echo deadline to `uptime + 2` seconds, plus
`Math.round(1 + duration/1000)` — not `ceil(duration/1000)` — additional
seconds when a positive numeric `duration` is given; (2) every `updateInfo`
call made while `modified >= uptime` is discarded entirely: the item (state,
info and capability) is returned unchanged and no notification is
emitted. -/
theorem claim_C1_amended :
    (∀ (conv : ColorConv) (item : LightItem) (input : CmdInput) (uptime : ℚ),
       ExOkImp (setColor conv item input uptime) (fun r =>
         r.ret.isSome = true → r.item.modified = echoDeadline uptime input)) ∧
    (∀ (item : LightItem) (hueInfo : HueInfo) (uptime : ℚ),
       item.modified.geB (.num uptime) = true →
       updateInfo item hueInfo uptime = .ok (item, false)) := by
  constructor
  · intro conv item input uptime
    unfold setColor
    cases hn : normalizeInput input with
    | none => simp [ExOkImp]
    | some o =>
        cases hp : parseColorRGB conv item o { on' := item.state.on' } with
        | error e =>
            dsimp only
            rw [hp]
            exact trivial
        | ok r =>
            obtain ⟨r1, nv⟩ := r
            dsimp only
            rw [hp]
            intro _
            rw [(finishSetColor_modified item o _ uptime).1]
            exact echoDeadline_normalize input o uptime hn
  · intro item hueInfo uptime h
    unfold updateInfo
    simp [h, pure, Except.pure]

/-- C1 witness: part (1) at the concrete brightness command with
`duration = 1000` (deadline `10 + 2 + round(1 + 1) = 14`), part (2) at the
concrete light with `modified = uptime = 0`; the last conjunct shows part
(1) is instantiated non-vacuously. -/
theorem claim_C1_witness :
    ExOkImp (setColor idConv itemB (.obj cmdBri50Dur1000) 10) (fun r =>
      r.ret.isSome = true →
      r.item.modified = echoDeadline 10 (.obj cmdBri50Dur1000)) ∧
    updateInfo itemB hueInfoB 0 = .ok (itemB, false) ∧
    exIsOk (setColor idConv itemB (.obj cmdBri50Dur1000) 10) = true :=
  ⟨claim_C1_amended.1 idConv itemB (.obj cmdBri50Dur1000) 10,
   claim_C1_amended.2 itemB hueInfoB 0 (by decide),
   by with_unfolding_all rfl⟩

/-- `===` against the string `'ct'` holds exactly for a present `colormode`
equal to `'ct'`. -/
theorem strictEq_str_iff (cm : Option JVal) (t : String) :
    ((optGet cm).strictEq (.str t) = true) ↔ cm = some (.str t) := by
  cases cm with
  | none => simp [optGet, JVal.strictEq]
  | some v => cases v <;> simp [optGet, JVal.strictEq]

/-- C9 (amended): the `mired`/`kelvin` payload fields are present exactly
when the stored `colormode` is `'ct'` (not when the capability set contains
`CT`); when the state carries a positive finite `ct` value they equal
`Math.round(ct)` and `Math.round(1000000/ct)` and are finite numbers (never
`NaN`). -/
theorem claim_C9_amended (conv : ColorConv) (item : LightItem) (c : ℚ)
    (hct : item.state.ct = some (.jnum (.num c))) (hc : 0 < c) :
    ExOkImp (getStateMessage conv item) (fun m =>
      (m.payload.mired.isSome = true ↔
        item.state.colormode = some (.str "ct")) ∧
      (item.state.colormode = some (.str "ct") →
        m.payload.mired = some (.num ((⌊c + 1/2⌋ : ℤ) : ℚ)) ∧
        m.payload.kelvin = some (.num ((⌊1000000 / c + 1/2⌋ : ℤ) : ℚ)))) := by
  unfold getStateMessage
  cases hx : computeXyY conv item with
  | error e => simp [ExOkImp]
  | ok xyY =>
      simp only [ExOkImp, buildStateMessage]
      by_cases hcm : item.state.colormode = some (.str "ct")
      · have hse : (optGet item.state.colormode).strictEq (.str "ct") = true :=
          (strictEq_str_iff _ _).mpr hcm
        have hcne : c ≠ 0 := ne_of_gt hc
        simp [ctPayloadFields, hse, hcm, hct, optGet, JVal.toNumber,
              JNum.round, JNum.div, hcne, JVal.strictEq]
      · have hse : (optGet item.state.colormode).strictEq (.str "ct") = false := by
          rw [← Bool.not_eq_true]
          exact fun h => hcm ((strictEq_str_iff _ _).mp h)
        simp [ctPayloadFields, hse, hcm]

/-- C9 witness: the concrete `ct`-mode light (`ct = 153`): the fields are
present with `mired = 153` and `kelvin = round(1000000/153) = 6536`. -/
theorem claim_C9_witness :
    ExOkImp (getStateMessage idConv itemCT2) (fun m =>
      (m.payload.mired.isSome = true ↔
        itemCT2.state.colormode = some (.str "ct")) ∧
      (itemCT2.state.colormode = some (.str "ct") →
        m.payload.mired = some (.num ((⌊(153 : ℚ) + 1/2⌋ : ℤ) : ℚ)) ∧
        m.payload.kelvin =
          some (.num ((⌊1000000 / (153 : ℚ) + 1/2⌋ : ℤ) : ℚ)))) ∧
    exIsOk (getStateMessage idConv itemCT2) = true :=
  ⟨claim_C9_amended idConv itemCT2 153 rfl (by norm_num),
   by with_unfolding_all rfl⟩

end NodeHue
